import Mathlib

/-!
Verification of the retrieval-ranking core of the `python-api` RAG service.

The development shallowly embeds the similarity-search logic of
`src/app.py` (the `/api/search/vector` endpoint and its helper
`cosine_similarity`) and `src/rag_service_sql.py` (`search_suggestions`,
`chat`, `_cosine_similarity`).  Python floats are modelled as real numbers
for the cosine scorer (the only place where square roots occur) and as
rational numbers everywhere else, so that the pipeline definitions stay
executable.  SQL Server is modelled by explicit row lists: a query with an
`ORDER BY ... VECTOR_DISTANCE` clause is the corresponding sort by
descending similarity, `TOP (n)` is `List.take n`, and a `WHERE c IS NOT
NULL` clause is a filter on the corresponding `Option` field.
-/

namespace RagApi

/-! ## Similarity scorer (`_cosine_similarity`, rag_service_sql.py 860-872
    and the identical `cosine_similarity`, app.py 62-74) -/

/-- Sum of the pairwise products of two vectors: the `dot_product`
      local of `_cosine_similarity` (`sum(a * b for a, b in zip(vec1, vec2))`,
      rag_service_sql.py line 865).  Python `zip` truncates to the shorter
      list, exactly as `List.zip` does. -/
noncomputable def dotList (vec1 vec2 : List ℝ) : ℝ :=
  ((vec1.zip vec2).map (fun p => p.1 * p.2)).sum

/-- Sum of squares of a vector; `Real.sqrt (sumSq v)` is the
      `magnitude` local of `_cosine_similarity` (`sum(a * a for a in vec1) ** 0.5`,
      rag_service_sql.py lines 866-867). -/
noncomputable def sumSq (v : List ℝ) : ℝ :=
  (v.map (fun a => a * a)).sum

open Classical in
/-- Shallow embedding of `_cosine_similarity` (rag_service_sql.py 860-872),
      line for line: a length mismatch returns `0.0`; a zero magnitude on
      either side returns `0.0`; otherwise the quotient is returned.
      `cosine_similarity` in app.py (lines 62-74) is textually the same
      function. -/
noncomputable def cosine_similarity (vec1 vec2 : List ℝ) : ℝ :=
  if vec1.length ≠ vec2.length then 0
  else if Real.sqrt (sumSq vec1) = 0 ∨ Real.sqrt (sumSq vec2) = 0 then 0
  else dotList vec1 vec2 / (Real.sqrt (sumSq vec1) * Real.sqrt (sumSq vec2))

lemma sumSq_nonneg (v : List ℝ) : 0 ≤ sumSq v := by
  refine List.sum_nonneg ?_
  intro x hx
  rcases List.mem_map.1 hx with ⟨a, -, rfl⟩
  exact mul_self_nonneg a

lemma sumSq_pos_of_mem_ne_zero {v : List ℝ} {x : ℝ} (hx : x ∈ v) (hne : x ≠ 0) :
    0 < sumSq v := by
  have hxx : x * x ∈ v.map (fun a => a * a) := List.mem_map_of_mem _ hx
  have hle : x * x ≤ sumSq v := by
    refine List.single_le_sum ?_ _ hxx
    intro y hy
    rcases List.mem_map.1 hy with ⟨a, -, rfl⟩
    exact mul_self_nonneg a
  exact lt_of_lt_of_le (mul_self_pos.mpr hne) hle

lemma dotList_self (v : List ℝ) : dotList v v = sumSq v := by
  induction v with
  | nil => simp [dotList, sumSq]
  | cons a v ih => simp [dotList, sumSq] at ih ⊢; simp [ih]

/-- C2: the cosine-similarity function is total and never raises: on a
      length mismatch it returns exactly `0.0`; when either vector has zero
      magnitude (zero sum of squares) it returns exactly `0.0`; otherwise
      it returns `dot(a,b) / (‖a‖ * ‖b‖)`. -/
theorem cosine_similarity_total_spec (a b : List ℝ) :
    (a.length ≠ b.length → cosine_similarity a b = 0) ∧
    ((sumSq a = 0 ∨ sumSq b = 0) → cosine_similarity a b = 0) ∧
    (a.length = b.length → sumSq a ≠ 0 → sumSq b ≠ 0 →
      cosine_similarity a b =
        dotList a b / (Real.sqrt (sumSq a) * Real.sqrt (sumSq b))) := by
  refine ⟨fun h => ?_, fun h => ?_, fun hlen ha hb => ?_⟩
  · simp [cosine_similarity, h]
  · rcases eq_or_ne a.length b.length with hlen | hlen
    · have hz : Real.sqrt (sumSq a) = 0 ∨ Real.sqrt (sumSq b) = 0 := by
        rcases h with h | h
        · exact Or.inl (by rw [h, Real.sqrt_zero])
        · exact Or.inr (by rw [h, Real.sqrt_zero])
      simp [cosine_similarity, hlen, hz]
    · simp [cosine_similarity, hlen]
  · have ha' : Real.sqrt (sumSq a) ≠ 0 :=
      Real.sqrt_ne_zero'.mpr (lt_of_le_of_ne (sumSq_nonneg a) (Ne.symm ha))
    have hb' : Real.sqrt (sumSq b) ≠ 0 :=
      Real.sqrt_ne_zero'.mpr (lt_of_le_of_ne (sumSq_nonneg b) (Ne.symm hb))
    simp [cosine_similarity, hlen, ha', hb']

/-- Witness for C2: the concrete mismatched pair `[1]` and `[1, 2]` is
      scored `0.0` by the first clause of the specification theorem. -/
theorem cosine_similarity_total_spec_witness :
    cosine_similarity [(1 : ℝ)] [1, 2] = 0 :=
  (cosine_similarity_total_spec [1] [1, 2]).1 (by simp)

/-- C9: over exact real arithmetic, `cosineSimilarity(v, v) = 1` for every
      vector `v` with a non-zero component. -/
theorem cosine_similarity_self (v : List ℝ) (h : ∃ x ∈ v, x ≠ 0) :
    cosine_similarity v v = 1 := by
  rcases h with ⟨x, hx, hne⟩
  have hpos : 0 < sumSq v := sumSq_pos_of_mem_ne_zero hx hne
  have hsqrt : Real.sqrt (sumSq v) ≠ 0 := Real.sqrt_ne_zero'.mpr hpos
  have hmul : Real.sqrt (sumSq v) * Real.sqrt (sumSq v) = sumSq v :=
    Real.mul_self_sqrt (le_of_lt hpos)
  simp [cosine_similarity, hsqrt, dotList_self, hmul, div_self (ne_of_gt hpos)]

/-- Witness for C9: the non-zero vector `[1, 0]` scores `1` against
      itself. -/
theorem cosine_similarity_self_witness :
    cosine_similarity [(1 : ℝ), 0] [1, 0] = 1 :=
  cosine_similarity_self [1, 0] ⟨1, by simp, one_ne_zero⟩

/-! ## Candidate data model (the per-row dictionaries built by
    `search_suggestions` and `chat`) and the stable descending sort that
    models Python `list.sort(key=lambda x: x["similarity"], reverse=True)`
    and the SQL `ORDER BY VECTOR_DISTANCE(...) ASC` clause.  Similarities
    are modelled as rationals so every pipeline definition is executable. -/

structure Candidate where
  id : Nat
  content : String
  file_name : String
  page_number : Nat
  chunk_index : Nat
  similarity : ℚ
deriving DecidableEq, Repr

/-- Stable sort by descending similarity key.  Python `list.sort` is a
      stable sort, so any stable sort implementation (here insertion sort)
      computes the same output list. -/
def sortBySim {α : Type} (simOf : α → ℚ) (l : List α) : List α :=
  @List.insertionSort α (fun a b => simOf b ≤ simOf a)
    (fun a b => inferInstanceAs (Decidable (simOf b ≤ simOf a))) l

lemma sortBySim_sorted {α : Type} (simOf : α → ℚ) (l : List α) :
    (sortBySim simOf l).Sorted (fun a b => simOf b ≤ simOf a) :=
  @List.sorted_insertionSort α (fun a b => simOf b ≤ simOf a)
    (fun a b => inferInstanceAs (Decidable (simOf b ≤ simOf a)))
    ⟨fun a b => le_total (simOf b) (simOf a)⟩
    ⟨fun _ _ _ hab hbc => le_trans hbc hab⟩ l

lemma sortBySim_perm {α : Type} (simOf : α → ℚ) (l : List α) :
    (sortBySim simOf l).Perm l :=
  @List.perm_insertionSort α (fun a b => simOf b ≤ simOf a)
    (fun a b => inferInstanceAs (Decidable (simOf b ≤ simOf a))) l

lemma mem_sortBySim {α : Type} {simOf : α → ℚ} {l : List α} {x : α} :
    x ∈ sortBySim simOf l ↔ x ∈ l :=
  (sortBySim_perm simOf l).mem_iff

/-- The shared filter-then-sort step: `chat` lines 671-672 and 777-779
      (`[r for r in all_fetched_results if r["similarity"] >= similarity_threshold]`
      followed by `filtered_results.sort(..., reverse=True)`); the same
      composite arises in the `search_suggestions` fallback (filter inside
      the scan loop at line 466, sort at line 479) and in the app.py JSON
      path (filter at line 341, sort at line 362). -/
def filterSortBy {α : Type} (simOf : α → ℚ) (l : List α) (t : ℚ) : List α :=
  sortBySim simOf (l.filter (fun x => decide (t ≤ simOf x)))

/-- Filter + sort + truncate: the full ranking step (`results = filtered_results[:top_k]`,
      chat line 780; `all_results[:top_k]`, search_suggestions line 480;
      `all_results[:top_n]`, app.py line 363). -/
def rankBy {α : Type} (simOf : α → ℚ) (l : List α) (t : ℚ) (k : Nat) : List α :=
  (filterSortBy simOf l t).take k

lemma mem_filterSortBy {α : Type} {simOf : α → ℚ} {l : List α} {t : ℚ} {x : α} :
    x ∈ filterSortBy simOf l t ↔ x ∈ l ∧ t ≤ simOf x := by
  unfold filterSortBy
  rw [mem_sortBySim, List.mem_filter]
  simp

lemma filterSortBy_sorted {α : Type} (simOf : α → ℚ) (l : List α) (t : ℚ) :
    (filterSortBy simOf l t).Sorted (fun a b => simOf b ≤ simOf a) :=
  sortBySim_sorted _ _

lemma rankBy_threshold {α : Type} {simOf : α → ℚ} {l : List α} {t : ℚ} {k : Nat}
    {x : α} (hx : x ∈ rankBy simOf l t k) : t ≤ simOf x :=
  (mem_filterSortBy.1 ((List.take_sublist _ _).subset hx)).2

lemma rankBy_sorted {α : Type} (simOf : α → ℚ) (l : List α) (t : ℚ) (k : Nat) :
    (rankBy simOf l t k).Sorted (fun a b => simOf b ≤ simOf a) :=
  List.Pairwise.sublist (List.take_sublist _ _) (filterSortBy_sorted simOf l t)

lemma rankBy_length {α : Type} (simOf : α → ℚ) (l : List α) (t : ℚ) (k : Nat) :
    (rankBy simOf l t k).length ≤ k := by
  simp [rankBy]

/-! ## Fetch sizes requested from SQL Server at the four retrieval sites. -/

/-- `SELECT TOP ({top_k * 2})` in the native-vector query of
      `search_suggestions`, rag_service_sql.py line 429. -/
def suggestionsFetchTop (top_k : Nat) : Nat := top_k * 2

/-- `SELECT TOP ({top_k * 2})` in the native-vector query of `chat`,
      rag_service_sql.py line 632. -/
def chatFetchTop (top_k : Nat) : Nat := top_k * 2

/-- `SELECT TOP ({top_n})` in the native-vector (`VECTOR_DISTANCE`) query
      of app.py `search_vector`, lines 422, 437 and 456: the native path
      requests exactly the caller top-N, with no oversampling. -/
def appVectorFetchTop (top_n : Nat) : Nat := top_n

/-- `SELECT TOP ({top_n * 4})` in the JSON-fallback fetch of app.py
      `search_vector`, line 316. -/
def appJsonFetchTop (top_n : Nat) : Nat := top_n * 4

/-! ## app.py `search_vector` (lines 142-523): rows, the Path-B candidate
    scan with its skip counters, and the endpoint decision tree. -/

/-- One row of the searched table as app.py sees it.  `vectorJson` is
      `none` for SQL `NULL`, `some none` for a non-null cell whose
      `json.loads` raises (malformed JSON), and `some (some v)` for a cell
      that decodes to the vector `v`.  `embedding` abstracts the native
      `VECTOR` column: `some s` means the column is populated and the
      server-side `1.0 - VECTOR_DISTANCE(...)` score against the current
      query is `s`. -/
structure AppRow where
  id : Nat
  content : Option String
  vectorJson : Option (Option (List ℚ))
  embedding : Option ℚ
deriving DecidableEq, Repr

/-- One entry of the `results` array of the endpoint response
      (`{"id": ..., "content": ..., "similarity": ...}`). -/
structure SearchResult where
  id : Nat
  content : String
  similarity : ℚ
deriving DecidableEq, Repr

/-- The mutable state of the Path-B scan loop, app.py lines 321-349:
      the accumulated `all_results`, `dimension_mismatches` and
      `processed_count`. -/
structure ScanState where
  results : List SearchResult
  dimension_mismatches : Nat
  processed_count : Nat
deriving DecidableEq, Repr

/-- One iteration of the Path-B scan loop (app.py lines 324-349):
      count the row as processed; a `NULL` or malformed vector is skipped
      (`except: continue`), an empty decoded vector is skipped, a
      dimension mismatch is counted and skipped, and a surviving row is
      scored and kept when its similarity reaches the threshold. -/
def scanStep (sim : List ℚ → List ℚ → ℚ) (q : List ℚ) (t : ℚ)
    (s : ScanState) (row : AppRow) : ScanState :=
  let s1 : ScanState := { s with processed_count := s.processed_count + 1 }
  match row.vectorJson with
  | none => s1
  | some none => s1
  | some (some v) =>
    if v.isEmpty then s1
    else if v.length ≠ q.length then
      { s1 with dimension_mismatches := s1.dimension_mismatches + 1 }
    else if t ≤ sim q v then
      { s1 with results := s1.results ++ [⟨row.id, row.content.getD (""), sim q v⟩] }
    else s1

/-- The whole Path-B scan over the fetched rows. -/
def scanRows (sim : List ℚ → List ℚ → ℚ) (q : List ℚ) (t : ℚ)
    (rows : List AppRow) : ScanState :=
  rows.foldl (scanStep sim q t) ⟨[], 0, 0⟩

/-- The result (if any) that one row contributes to the scan. -/
def scanKeep (sim : List ℚ → List ℚ → ℚ) (q : List ℚ) (t : ℚ)
    (row : AppRow) : Option SearchResult :=
  match row.vectorJson with
  | some (some v) =>
    if v.isEmpty then none
    else if v.length ≠ q.length then none
    else if t ≤ sim q v then some ⟨row.id, row.content.getD (""), sim q v⟩
    else none
  | _ => none

/-- Whether a row is counted in `dimension_mismatches`. -/
def isDimensionMismatch (q : List ℚ) (row : AppRow) : Bool :=
  match row.vectorJson with
  | some (some v) => !v.isEmpty && v.length != q.length
  | _ => false

/-- app.py Path-B ranking: the scan results sorted descending and cut to
      `top_n` (lines 362-363). -/
def appJsonRanked (sim : List ℚ → List ℚ → ℚ) (q : List ℚ) (t : ℚ)
    (top_n : Nat) (fetched : List AppRow) : List SearchResult :=
  (sortBySim SearchResult.similarity (scanRows sim q t fetched).results).take top_n

/-- Server-side similarity of a row on the native path. -/
def appRowSim (r : AppRow) : ℚ := r.embedding.getD 0

/-- app.py Path-A ranking (lines 417-485): SQL returns the `TOP (top_n)`
      rows with non-null `Embedding` ordered by ascending cosine distance
      (descending similarity); Python then keeps those whose similarity
      reaches the threshold. -/
def appNativeRanked (withEmb : List AppRow) (t : ℚ) (top_n : Nat) : List SearchResult :=
  (((sortBySim appRowSim withEmb).take (appVectorFetchTop top_n)).map
      (fun r => ⟨r.id, r.content.getD (""), appRowSim r⟩)).filter
    (fun res => decide (t ≤ res.similarity))

/-- The searched table and its capability flags as probed by
      `search_vector` (app.py lines 210-260). -/
structure AppTable where
  table_exists : Bool
  has_embedding_column : Bool
  embedding_type_is_vector : Bool
  server_version_major : Nat
  has_vector_json_column : Bool
  rows : List AppRow
deriving DecidableEq, Repr

/-- The endpoint response: HTTP status, `totalResults`, `results`, and
      the total-record count carried inside the `warning` (or error)
      message when one is attached. -/
structure VectorSearchResponse where
  status : Nat
  totalResults : Option Nat
  results : List SearchResult
  warning_total_records : Option Nat
  is_error : Bool
deriving DecidableEq, Repr

/-- Shallow embedding of the `search_vector` endpoint decision tree
      (app.py lines 209-497): missing table is a 400; the capability probe
      forces the JSON fallback unless the `Embedding` column exists, has
      the `vector` type and the server major version is at least 16;
      a fallback without a `VectorJson` column is a 400 carrying the total
      record count; zero populated vector rows on either path is a 200
      "warning" response carrying the total record count; otherwise the
      path-specific ranking runs. -/
def search_vector (sim : List ℚ → List ℚ → ℚ) (q : List ℚ) (tbl : AppTable)
    (top_n : Nat) (t : ℚ) : VectorSearchResponse :=
  if !tbl.table_exists then ⟨400, none, [], none, true⟩
  else
    let supports_vector := decide (16 ≤ tbl.server_version_major)
    let can_use_vector_distance := supports_vector && tbl.embedding_type_is_vector
    let has_embedding_column := tbl.has_embedding_column && can_use_vector_distance
    let total_records := tbl.rows.length
    if !has_embedding_column then
      if !tbl.has_vector_json_column then ⟨400, none, [], some total_records, true⟩
      else
        let withJson := tbl.rows.filter (fun r => r.vectorJson.isSome)
        if withJson.length = 0 then ⟨200, some 0, [], some total_records, false⟩
        else
          let fetched := withJson.take (appJsonFetchTop top_n)
          let ranked := appJsonRanked sim q t top_n fetched
          ⟨200, some ranked.length, ranked, none, false⟩
    else
      let withEmb := tbl.rows.filter (fun r => r.embedding.isSome)
      if withEmb.length = 0 then ⟨200, some 0, [], some total_records, false⟩
      else
        let ranked := appNativeRanked withEmb t top_n
        ⟨200, some ranked.length, ranked, none, false⟩

/-! ## rag_service_sql.py: rows, the JSON-fallback scan shared by
    `search_suggestions` and `chat`, and the two endpoint models. -/

/-- One row of the RAG table (`ID, Content, VectorJson, FileName,
      PageNumber, ChunkIndex`).  `vectorJson` is encoded as in `AppRow`;
      `file_name`, `page_number` and `chunk_index` are nullable and are
      defaulted by the Python code to the word unknown and to 0
      (`row[3] or ...`, `row[4] or 0`, `row[5] or 0`). -/
structure RagRow where
  id : Nat
  content : String
  vectorJson : Option (Option (List ℚ))
  file_name : Option String
  page_number : Option Nat
  chunk_index : Option Nat
deriving DecidableEq, Repr

/-- The JSON-fallback scan shared by `search_suggestions`
      (rag_service_sql.py lines 455-476) and `chat` (lines 647-668):
      SQL returns only rows with non-null `VectorJson`; a row whose cell
      fails to decode is skipped by the bare `except: continue`; an empty
      decoded vector is skipped by `if vector:`; every surviving row is
      scored with the cosine scorer (which itself returns `0.0` on a
      dimension mismatch, so no length check happens here). -/
def ragScan (sim : List ℚ → List ℚ → ℚ) (q : List ℚ) (rows : List RagRow) :
    List Candidate :=
  rows.filterMap (fun r =>
    match r.vectorJson with
    | some (some v) =>
      if v.isEmpty then none
      else some ⟨r.id, r.content, r.file_name.getD ("unknown"),
                 r.page_number.getD 0, r.chunk_index.getD 0, sim q v⟩
    | _ => none)

/-- Content preview: `content[:n] + "..." if len(content) > n else content`. -/
def contentPreview (n : Nat) (s : String) : String :=
  if n < s.length then s.take n ++ "..." else s

/-- One entry of the `sources` array of a chat response (1-based page
      number, 200-character preview). -/
structure Source where
  id : Nat
  file_name : String
  page_number : Nat
  content_preview : String
  similarity : ℚ
deriving DecidableEq, Repr

def toSource (c : Candidate) : Source :=
  ⟨c.id, c.file_name, c.page_number + 1, contentPreview 200 c.content, c.similarity⟩

/-- The value of the `suggestions` key of a chat response.  Python uses
      three distinct values: `None`, the empty list `[]` (only in the
      embedding-failure error response, line 567), and the populated
      suggestions dict (`has_suggestions`/`total_available`/`suggestions`).
      The source decorates each suggestion with a 1-based index, a preview
      and a percentage; the claims only concern the entry count and the
      stable ids, so the entries are kept as candidates. -/
inductive SuggestionsField where
  | pynone
  | emptyList
  | block (total_available : Nat) (suggestions : List Candidate)
deriving DecidableEq, Repr

/-- A chat response.  `no_results` models the `no_results` key with
      `False` standing for an absent key; `llm_called` records whether the
      answer-synthesis chain (`chain.invoke`, lines 740 and 842) ran. -/
structure ChatResponse where
  answer : Option String
  sources : List Source
  suggestions : SuggestionsField
  no_results : Bool
  llm_called : Bool
  is_error : Bool
deriving DecidableEq, Repr

/-- The fixed zero-candidate answer returned without invoking the LLM
      (rag_service_sql.py lines 709 and 811). -/
def noInfoAnswer : String :=
  "Tôi không tìm thấy thông tin liên quan đến câu hỏi của bạn trong tài liệu."

/-- The answer of the missing-table error response (line 589); the source
      interpolates the table name into the sentence, which the model does
      not track. -/
def tableMissingAnswer : String :=
  "Tôi không tìm thấy bảng trong database. Vui lòng kiểm tra lại tên bảng."

/-- What the `TOP (top_k * 2)` native-vector query of `chat` returns when
      no ids were pre-selected (lines 631-643). -/
def chatVectorFetched (cands : List Candidate) (top_k : Nat) : List Candidate :=
  (sortBySim Candidate.similarity cands).take (chatFetchTop top_k)

/-- The threshold-passing candidate list of the `chat` native path when no
      ids were pre-selected (`filtered_results` after the sort, lines
      778-779). -/
def chatVectorFiltered (cands : List Candidate) (top_k : Nat) (t : ℚ) :
    List Candidate :=
  filterSortBy Candidate.similarity (chatVectorFetched cands top_k) t

/-- The native-vector branch of `chat` (rag_service_sql.py lines 613-643
      and 758-858).  With selected suggestion ids the SQL query returns
      exactly the rows with those ids ordered by distance; otherwise it
      returns the `TOP (top_k * 2)` rows.  Python then filters by the
      threshold, re-sorts descending, truncates to `top_k`, decides the
      suggestions block (at least 3 threshold-passing candidates, caller
      opted in, no pre-selected ids, at most 10 entries), and either
      returns the fixed no-information answer or synthesizes an answer
      from the results.  `chatVectorCore` is the part after the SQL fetch
      (lines 758-858), with `selected_empty` recording whether
      `selected_suggestion_ids` was empty; `chatVector` dispatches between
      the two SQL queries (lines 613-643). -/
def chatVectorCore (synthesize : List Candidate → String)
    (fetched : List Candidate) (top_k : Nat) (t : ℚ)
    (return_suggestions selected_empty : Bool) : ChatResponse :=
  let filtered := filterSortBy Candidate.similarity fetched t
  let results := filtered.take top_k
  let suggestions_data :=
    if return_suggestions && decide (3 ≤ filtered.length) && selected_empty then
      SuggestionsField.block filtered.length (filtered.take 10)
    else SuggestionsField.pynone
  if results.isEmpty then
    ⟨some noInfoAnswer, [], suggestions_data, true, false, false⟩
  else
    ⟨some (synthesize results), results.map toSource, suggestions_data, false, true, false⟩

def chatVector (synthesize : List Candidate → String) (cands : List Candidate)
    (top_k : Nat) (t : ℚ) (return_suggestions : Bool) (selected : List Nat) :
    ChatResponse :=
  if selected.isEmpty then
    chatVectorCore synthesize (chatVectorFetched cands top_k) top_k t
      return_suggestions true
  else
    chatVectorCore synthesize
      (sortBySim Candidate.similarity (cands.filter (fun c => selected.contains c.id)))
      top_k t return_suggestions false

/-- The JSON-fallback branch of `chat` (rag_service_sql.py lines 644-756):
      scan and score every row with a non-null `VectorJson`, filter by the
      threshold and sort descending; with selected ids the results are the
      filtered candidates whose id was selected (not truncated), otherwise
      the top `top_k`; the suggestions decision and the two final branches
      are the same as on the native path. -/
def chatFallback (synthesize : List Candidate → String)
    (sim : List ℚ → List ℚ → ℚ) (q : List ℚ) (rows : List RagRow)
    (top_k : Nat) (t : ℚ) (return_suggestions : Bool) (selected : List Nat) :
    ChatResponse :=
  let filtered := filterSortBy Candidate.similarity (ragScan sim q rows) t
  let results :=
    if selected.isEmpty then filtered.take top_k
    else filtered.filter (fun c => selected.contains c.id)
  let suggestions_data :=
    if return_suggestions && decide (3 ≤ filtered.length) && selected.isEmpty then
      SuggestionsField.block filtered.length (filtered.take 10)
    else SuggestionsField.pynone
  if results.isEmpty then
    ⟨some noInfoAnswer, [], suggestions_data, true, false, false⟩
  else
    ⟨some (synthesize results), results.map toSource, suggestions_data, false, true, false⟩

/-- Shallow embedding of `chat` for a single table (rag_service_sql.py
      lines 509-858).  `query_ok` is whether the query embedding was
      produced (lines 554-568); `table_exists` and `has_vector_column` are
      the two SQL probes (lines 574-607); `cands` is the scored table seen
      by the native path (one candidate per row with non-null `Embedding`,
      similarity as computed server-side); `rows` is the raw table seen by
      the JSON fallback. -/
def chat (synthesize : List Candidate → String)
    (query_ok table_exists has_vector_column : Bool)
    (cands : List Candidate) (rows : List RagRow)
    (sim : List ℚ → List ℚ → ℚ) (q : List ℚ)
    (top_k : Nat) (t : ℚ) (return_suggestions : Bool) (selected : List Nat) :
    ChatResponse :=
  if !query_ok then ⟨none, [], SuggestionsField.emptyList, false, false, true⟩
  else if !table_exists then
    ⟨some tableMissingAnswer, [], SuggestionsField.pynone, true, false, true⟩
  else if has_vector_column then
    chatVector synthesize cands top_k t return_suggestions selected
  else
    chatFallback synthesize sim q rows top_k t return_suggestions selected

/-- The `search_suggestions` response (`suggestions`, `total_found`,
      `has_multiple_suggestions`); `llm_called` is false on every path
      because the endpoint never invokes the LLM. -/
structure SuggestionsResponse where
  suggestions : List Candidate
  total_found : Nat
  has_multiple_suggestions : Bool
  llm_called : Bool
  is_error : Bool
deriving DecidableEq, Repr

/-- The native-vector ranking of `search_suggestions` (rag_service_sql.py
      lines 426-452): SQL returns the `TOP (top_k * 2)` rows ordered by
      descending similarity and Python keeps those at or above the
      threshold.  Note there is no truncation to `top_k` on this path. -/
def suggestionsVectorRanked (cands : List Candidate) (t : ℚ) (top_k : Nat) :
    List Candidate :=
  ((sortBySim Candidate.similarity cands).take (suggestionsFetchTop top_k)).filter
    (fun c => decide (t ≤ c.similarity))

/-- The JSON-fallback ranking of `search_suggestions` (lines 453-480):
      scan, filter by threshold, sort descending, truncate to `top_k`. -/
def suggestionsFallbackRanked (sim : List ℚ → List ℚ → ℚ) (q : List ℚ)
    (rows : List RagRow) (t : ℚ) (top_k : Nat) : List Candidate :=
  rankBy Candidate.similarity (ragScan sim q rows) t top_k

/-- Shallow embedding of `search_suggestions` (rag_service_sql.py lines
      372-507).  The suggestion decoration (1-based index, preview,
      percentage) is dropped; `has_multiple_suggestions` is
      `len(suggestions) >= min_suggestions` (line 498). -/
def searchSuggestions (query_ok has_vector_column : Bool)
    (cands : List Candidate) (rows : List RagRow)
    (sim : List ℚ → List ℚ → ℚ) (q : List ℚ)
    (top_k : Nat) (t : ℚ) (min_suggestions : Nat) : SuggestionsResponse :=
  if !query_ok then ⟨[], 0, false, false, true⟩
  else
    let all_results :=
      if has_vector_column then suggestionsVectorRanked cands t top_k
      else suggestionsFallbackRanked sim q rows t top_k
    ⟨all_results, all_results.length,
     decide (min_suggestions ≤ all_results.length), false, false⟩

/-- Modelled from the spec: the federated helper `_chat_multiple_tables`
      is invoked by `chat` (rag_service_sql.py line 541) when
      `search_multiple_tables` is set with a non-empty `table_names`, but
      its definition is not among the provided source files.  Section 4.4
      of the specification describes it: run the retrieval pipeline per
      table, merge the per-table candidate lists, and apply the threshold,
      the descending sort and the `top_k` cut globally across the merged
      pool, so that ranking is global across tables rather than
      table-local. -/
def chatMultipleTablesMerge (tables : List (List Candidate)) (t : ℚ)
    (top_k : Nat) : List Candidate :=
  rankBy Candidate.similarity tables.flatten t top_k

/-! ## Characterization of the Path-B scan state. -/

lemma foldl_scanStep (sim : List ℚ → List ℚ → ℚ) (q : List ℚ) (t : ℚ)
    (rows : List AppRow) (s : ScanState) :
    rows.foldl (scanStep sim q t) s =
      ⟨s.results ++ rows.filterMap (scanKeep sim q t),
       s.dimension_mismatches + (rows.filter (isDimensionMismatch q)).length,
       s.processed_count + rows.length⟩ := by
  induction rows generalizing s with
  | nil => simp
  | cons r rows ih =>
    rw [List.foldl_cons, ih]
    rcases hr : r.vectorJson with _ | ov
    · simp [scanStep, scanKeep, isDimensionMismatch, hr, ScanState.mk.injEq,
        Nat.add_assoc, Nat.add_comm 1]
    · rcases ov with _ | v
      · simp [scanStep, scanKeep, isDimensionMismatch, hr, ScanState.mk.injEq,
          Nat.add_assoc, Nat.add_comm 1]
      · by_cases hemp : v.isEmpty
        · simp [scanStep, scanKeep, isDimensionMismatch, hr, hemp,
            ScanState.mk.injEq, Nat.add_assoc, Nat.add_comm 1]
        · by_cases hlen : v.length = q.length
          · by_cases hth : t ≤ sim q v
            · simp [scanStep, scanKeep, isDimensionMismatch, hr, hemp, hlen, hth,
                ScanState.mk.injEq, Nat.add_assoc, Nat.add_comm 1]
            · simp [scanStep, scanKeep, isDimensionMismatch, hr, hemp, hlen, hth,
                ScanState.mk.injEq, Nat.add_assoc, Nat.add_comm 1]
          · simp [scanStep, scanKeep, isDimensionMismatch, hr, hemp, hlen,
              ScanState.mk.injEq, Nat.add_assoc, Nat.add_comm 1]

lemma scanRows_results (sim : List ℚ → List ℚ → ℚ) (q : List ℚ) (t : ℚ)
    (rows : List AppRow) :
    (scanRows sim q t rows).results = rows.filterMap (scanKeep sim q t) := by
  simp [scanRows, foldl_scanStep]

lemma scanRows_dimension_mismatches (sim : List ℚ → List ℚ → ℚ) (q : List ℚ)
    (t : ℚ) (rows : List AppRow) :
    (scanRows sim q t rows).dimension_mismatches =
      (rows.filter (isDimensionMismatch q)).length := by
  simp [scanRows, foldl_scanStep]

lemma scanRows_processed_count (sim : List ℚ → List ℚ → ℚ) (q : List ℚ)
    (t : ℚ) (rows : List AppRow) :
    (scanRows sim q t rows).processed_count = rows.length := by
  simp [scanRows, foldl_scanStep]

lemma scanKeep_threshold {sim : List ℚ → List ℚ → ℚ} {q : List ℚ} {t : ℚ}
    {row : AppRow} {res : SearchResult}
    (h : scanKeep sim q t row = some res) : t ≤ res.similarity := by
  unfold scanKeep at h
  rcases hr : row.vectorJson with _ | ov <;> rw [hr] at h
  · simp at h
  · rcases ov with _ | v
    · simp at h
    · by_cases hemp : v.isEmpty
      · simp [hemp] at h
      · by_cases hlen : v.length = q.length
        · by_cases hth : t ≤ sim q v
          · simp [hemp, hlen, hth] at h
            rw [← h]
            exact hth
          · simp [hemp, hlen, hth] at h
        · simp [hemp, hlen] at h

/-! ## Claim theorems. -/

/-- C1 counterexample: the claim asserts the ranking step at every one of
      the three call sites returns at most `topK` candidates, but the
      native-vector path of `search_suggestions` filters the oversampled
      `TOP (top_k * 2)` fetch without truncating it: with `topK = 1`,
      threshold `0` and two candidates at similarity `1`, it returns two
      candidates. -/
theorem ranking_step_claim_counterexample :
    ¬ ((suggestionsVectorRanked
        [⟨1, ("a"), ("f"), 0, 0, 1⟩, ⟨2, ("b"), ("f"), 0, 0, 1⟩] 0 1).length ≤ 1) := by
  decide

/-- C1 (amended): the filter+sort+truncate ranking step of `chat` and of
      the `search_suggestions` fallback (`rankBy`), and both paths of
      app.py `search_vector`, return only candidates with similarity at or
      above the threshold (a candidate exactly at the threshold passes the
      filter), sorted non-increasing by similarity, of length at most
      `topK`; the native-vector path of `search_suggestions` also
      threshold-filters inclusively and stays sorted, but its length is
      only bounded by `2 * topK`. -/
theorem ranking_step_spec (l : List Candidate) (t : ℚ) (k : Nat)
    (sim : List ℚ → List ℚ → ℚ) (q : List ℚ) (n : Nat)
    (fetched withEmb : List AppRow) :
    ((∀ c ∈ rankBy Candidate.similarity l t k, t ≤ c.similarity) ∧
      (rankBy Candidate.similarity l t k).Sorted
        (fun a b => b.similarity ≤ a.similarity) ∧
      (rankBy Candidate.similarity l t k).length ≤ k ∧
      (∀ c ∈ l, t ≤ c.similarity → c ∈ filterSortBy Candidate.similarity l t)) ∧
    ((∀ r ∈ appJsonRanked sim q t n fetched, t ≤ r.similarity) ∧
      (appJsonRanked sim q t n fetched).Sorted
        (fun a b => b.similarity ≤ a.similarity) ∧
      (appJsonRanked sim q t n fetched).length ≤ n) ∧
    ((∀ r ∈ appNativeRanked withEmb t n, t ≤ r.similarity) ∧
      (appNativeRanked withEmb t n).Sorted
        (fun a b => b.similarity ≤ a.similarity) ∧
      (appNativeRanked withEmb t n).length ≤ n) ∧
    ((∀ c ∈ suggestionsVectorRanked l t k, t ≤ c.similarity) ∧
      (suggestionsVectorRanked l t k).Sorted
        (fun a b => b.similarity ≤ a.similarity) ∧
      (suggestionsVectorRanked l t k).length ≤ 2 * k) := by
  refine ⟨⟨fun c hc => rankBy_threshold hc, rankBy_sorted _ _ _ _,
      rankBy_length _ _ _ _, fun c hc hle => mem_filterSortBy.2 ⟨hc, hle⟩⟩,
    ⟨?_, ?_, ?_⟩, ⟨?_, ?_, ?_⟩, ⟨?_, ?_, ?_⟩⟩
  · intro r hr
    have hr1 : r ∈ sortBySim SearchResult.similarity (scanRows sim q t fetched).results :=
      (List.take_sublist _ _).subset hr
    have hr2 : r ∈ (scanRows sim q t fetched).results := mem_sortBySim.1 hr1
    rw [scanRows_results] at hr2
    rcases List.mem_filterMap.1 hr2 with ⟨row, -, hk⟩
    exact scanKeep_threshold hk
  · exact List.Pairwise.sublist (List.take_sublist _ _)
      (sortBySim_sorted SearchResult.similarity _)
  · simp [appJsonRanked]
  · intro r hr
    exact of_decide_eq_true (List.mem_filter.1 hr).2
  · refine List.Pairwise.filter _ ?_
    refine List.Pairwise.map _ (fun a b hab => hab) ?_
    exact List.Pairwise.sublist (List.take_sublist _ _)
      (sortBySim_sorted appRowSim withEmb)
  · refine le_trans (List.length_filter_le _ _) ?_
    simp [appVectorFetchTop]
  · intro c hc
    exact of_decide_eq_true (List.mem_filter.1 hc).2
  · exact List.Pairwise.filter _ (List.Pairwise.sublist (List.take_sublist _ _)
      (sortBySim_sorted Candidate.similarity l))
  · refine le_trans (List.length_filter_le _ _) ?_
    simp [suggestionsFetchTop, Nat.mul_comm]

/-- Witness for C1 (amended): the ranking step applied to one concrete
      candidate at the threshold keeps it and respects the length bound. -/
theorem ranking_step_spec_witness :
    (rankBy Candidate.similarity [⟨1, ("a"), ("f"), 0, 0, 1⟩] 1 1).length ≤ 1 ∧
    (⟨1, ("a"), ("f"), 0, 0, 1⟩ : Candidate) ∈
      filterSortBy Candidate.similarity [⟨1, ("a"), ("f"), 0, 0, 1⟩] 1 :=
  ⟨(ranking_step_spec [⟨1, ("a"), ("f"), 0, 0, 1⟩] 1 1 (fun _ _ => 0) [] 1
      [] []).1.2.2.1,
    (ranking_step_spec [⟨1, ("a"), ("f"), 0, 0, 1⟩] 1 1 (fun _ _ => 0) [] 1
      [] []).1.2.2.2 ⟨1, ("a"), ("f"), 0, 0, 1⟩ (by decide) (by decide)⟩

/-- C7 counterexample: the claim asserts that in every JSON-fallback scan
      a dimension-mismatched row is skipped and counted, but the
      `search_suggestions` fallback (rag_service_sql.py lines 461-476) has
      neither a length check nor any counter: the row is scored by
      `_cosine_similarity`, which returns `0.0` on a length mismatch (the
      first clause of C2), and the score is then compared with the
      threshold like any other.  Concretely, with query vector `[1]`, one
      stored row whose vector decodes to `[1, 2]`, threshold `0` and any
      scorer that returns `0` on mismatched lengths, the mismatched row is
      ranked - it appears in the output rather than being skipped. -/
theorem scan_bad_rows_claim_counterexample :
    (⟨5, ("x"), ("unknown"), 0, 0, 0⟩ : Candidate) ∈
      suggestionsFallbackRanked
        (fun a b => if a.length = b.length then 1 else 0) [1]
        [⟨5, ("x"), some (some [1, 2]), none, none, none⟩] 0 10 := by
  decide

/-- C7 (amended): a single bad row never aborts either JSON-fallback
      scan, but the two scans treat bad rows differently.  In the app.py
      scan (lines 321-349) a malformed or dimension-mismatched row is
      skipped and counted - `processed_count` counts every row including
      the malformed ones, `dimension_mismatches` counts the mismatches -
      and the results are exactly those of the scan without the bad row.
      In the `search_suggestions` fallback scan (rag_service_sql.py lines
      461-476) a malformed row is skipped by the bare `except` with no
      counter of any kind, while a row decoding to a non-empty vector of
      any length - a dimension mismatch included - is not skipped: it is
      scored by the cosine scorer (which yields `0.0` on a mismatch) and
      enters the ranking with that score; the surrounding rows are scanned
      unchanged in both cases. -/
theorem scan_skips_bad_rows (sim : List ℚ → List ℚ → ℚ) (q : List ℚ) (t : ℚ)
    (l1 l2 : List AppRow) (bad : AppRow) (r1 r2 : List RagRow) (rb : RagRow) :
    ((bad.vectorJson = some none ∨
        ∃ v, bad.vectorJson = some (some v) ∧ v ≠ [] ∧ v.length ≠ q.length) →
      (scanRows sim q t (l1 ++ bad :: l2)).results =
        (scanRows sim q t (l1 ++ l2)).results ∧
      (scanRows sim q t (l1 ++ bad :: l2)).processed_count =
        (scanRows sim q t (l1 ++ l2)).processed_count + 1 ∧
      (scanRows sim q t (l1 ++ bad :: l2)).dimension_mismatches =
        (scanRows sim q t (l1 ++ l2)).dimension_mismatches +
          (if isDimensionMismatch q bad then 1 else 0)) ∧
    (rb.vectorJson = some none →
      ragScan sim q (r1 ++ rb :: r2) = ragScan sim q (r1 ++ r2)) ∧
    (∀ v, rb.vectorJson = some (some v) → v ≠ [] →
      ragScan sim q (r1 ++ rb :: r2) =
        ragScan sim q r1 ++
          ⟨rb.id, rb.content, rb.file_name.getD ("unknown"),
            rb.page_number.getD 0, rb.chunk_index.getD 0, sim q v⟩ ::
          ragScan sim q r2) := by
  refine ⟨?_, ?_, ?_⟩
  · intro hbad
    have hkeep : scanKeep sim q t bad = none := by
      rcases hbad with h | ⟨v, hv, hne, hlen⟩
      · simp [scanKeep, h]
      · simp [scanKeep, hv, List.isEmpty_iff, hne, hlen]
    refine ⟨?_, ?_, ?_⟩
    · rw [scanRows_results, scanRows_results]
      simp [hkeep]
    · rw [scanRows_processed_count, scanRows_processed_count]
      simp [Nat.add_assoc, Nat.add_comm 1]
    · rw [scanRows_dimension_mismatches, scanRows_dimension_mismatches]
      by_cases hm : isDimensionMismatch q bad
      · simp [hm]
        omega
      · simp [hm]
  · intro h
    simp [ragScan, List.filterMap_append, h]
  · intro v hv hne
    simp [ragScan, List.filterMap_append, List.filterMap_cons, hv, hne]

/-- Witness for C7 (amended): a concrete app.py scan skips a malformed
      row and still counts it in `processed_count`, and a concrete
      `search_suggestions` fallback scan keeps a dimension-mismatched row
      with the score the scorer assigned it. -/
theorem scan_skips_bad_rows_witness :
    (scanRows (fun _ v => v.headI) [1] 0
        ([⟨1, some ("a"), some (some [1]), none⟩] ++
          (⟨2, none, some none, none⟩ : AppRow) ::
          [⟨3, some ("b"), some (some [2]), none⟩])).results =
      (scanRows (fun _ v => v.headI) [1] 0
        ([⟨1, some ("a"), some (some [1]), none⟩] ++
          [⟨3, some ("b"), some (some [2]), none⟩])).results ∧
    (scanRows (fun _ v => v.headI) [1] 0
        ([⟨1, some ("a"), some (some [1]), none⟩] ++
          (⟨2, none, some none, none⟩ : AppRow) ::
          [⟨3, some ("b"), some (some [2]), none⟩])).processed_count =
      (scanRows (fun _ v => v.headI) [1] 0
        ([⟨1, some ("a"), some (some [1]), none⟩] ++
          [⟨3, some ("b"), some (some [2]), none⟩])).processed_count + 1 ∧
    ragScan (fun a b => if a.length = b.length then 1 else 0) [1]
        ([] ++ (⟨5, ("x"), some (some [1, 2]), none, none, none⟩ : RagRow) :: []) =
      ragScan (fun a b => if a.length = b.length then 1 else 0) [1] [] ++
        (⟨5, ("x"), ("unknown"), 0, 0, 0⟩ : Candidate) ::
        ragScan (fun a b => if a.length = b.length then 1 else 0) [1] [] :=
  ⟨((scan_skips_bad_rows (fun _ v => v.headI) [1] 0
      [⟨1, some ("a"), some (some [1]), none⟩]
      [⟨3, some ("b"), some (some [2]), none⟩]
      ⟨2, none, some none, none⟩ [] []
      ⟨5, ("x"), some (some [1, 2]), none, none, none⟩).1 (Or.inl rfl)).1,
    ((scan_skips_bad_rows (fun _ v => v.headI) [1] 0
      [⟨1, some ("a"), some (some [1]), none⟩]
      [⟨3, some ("b"), some (some [2]), none⟩]
      ⟨2, none, some none, none⟩ [] []
      ⟨5, ("x"), some (some [1, 2]), none, none, none⟩).1 (Or.inl rfl)).2.1,
    (scan_skips_bad_rows (fun a b => if a.length = b.length then 1 else 0) [1] 0
      [⟨1, some ("a"), some (some [1]), none⟩]
      [⟨3, some ("b"), some (some [2]), none⟩]
      ⟨2, none, some none, none⟩ [] []
      ⟨5, ("x"), some (some [1, 2]), none, none, none⟩).2.2 [1, 2] rfl
      (by decide)⟩

/-- C8 counterexample: the claim asserts the native path requests a 2x-4x
      multiple of the caller top-K, but the native-path query of app.py
      `search_vector` requests exactly `TOP (top_n)`: with `topN = 10` the
      requested count is 10, not `m * 10` for any `m` between 2 and 4. -/
theorem native_oversampling_counterexample :
    ¬ ∃ m, 2 ≤ m ∧ m ≤ 4 ∧ appVectorFetchTop 10 = m * 10 := by
  rintro ⟨m, h2, h4, he⟩
  simp [appVectorFetchTop] at he
  omega

/-- C8 (amended): the two native-path queries of rag_service_sql.py
      (`search_suggestions` and `chat`) oversample by exactly `2 * topK`,
      inside the claimed 2x-4x band; app.py requests exactly `topN` on its
      native path (no oversampling), while its JSON-fallback fetch is the
      one capped at `4 * topN`. -/
theorem fetch_top_spec (k n : Nat) :
    (∃ m, 2 ≤ m ∧ m ≤ 4 ∧ suggestionsFetchTop k = m * k) ∧
    (∃ m, 2 ≤ m ∧ m ≤ 4 ∧ chatFetchTop k = m * k) ∧
    appVectorFetchTop n = n ∧
    appJsonFetchTop n = 4 * n := by
  refine ⟨⟨2, le_refl 2, by omega, ?_⟩, ⟨2, le_refl 2, by omega, ?_⟩, rfl, ?_⟩
  · simp [suggestionsFetchTop, Nat.mul_comm]
  · simp [chatFetchTop, Nat.mul_comm]
  · simp [appJsonFetchTop, Nat.mul_comm]

/-- Witness for C8 (amended): at `topK = 5` the `chat` native fetch is 10
      and the app.py native fetch at `topN = 3` is exactly 3. -/
theorem fetch_top_spec_witness :
    appVectorFetchTop 3 = 3 ∧ appJsonFetchTop 3 = 4 * 3 :=
  ⟨(fetch_top_spec 5 3).2.2.1, (fetch_top_spec 5 3).2.2.2⟩

/-- C3: federated chat over several tables returns one merged candidate
      list ranked globally by similarity across all tables - sorted
      non-increasing as a whole, every entry at or above the threshold and
      drawn from one of the tables, at most `top_k` entries - rather than
      a concatenation of per-table ranked lists. -/
theorem chat_multiple_tables_global_ranking (tables : List (List Candidate))
    (t : ℚ) (top_k : Nat) :
    (chatMultipleTablesMerge tables t top_k).Sorted
      (fun a b => b.similarity ≤ a.similarity) ∧
    (∀ c ∈ chatMultipleTablesMerge tables t top_k,
      t ≤ c.similarity ∧ ∃ tb ∈ tables, c ∈ tb) ∧
    (chatMultipleTablesMerge tables t top_k).length ≤ top_k := by
  refine ⟨rankBy_sorted _ _ _ _, ?_, rankBy_length _ _ _ _⟩
  intro c hc
  refine ⟨rankBy_threshold hc, ?_⟩
  have hmem : c ∈ tables.flatten :=
    (mem_filterSortBy.1 ((List.take_sublist _ _).subset hc)).1
  exact List.mem_flatten.1 hmem

/-- Witness for C3: a concrete two-table merge keeps the length bound and
      draws its entries from the tables. -/
theorem chat_multiple_tables_global_ranking_witness :
    (chatMultipleTablesMerge
      [[⟨1, ("a"), ("f"), 0, 0, 1⟩], [⟨2, ("b"), ("g"), 0, 0, 2⟩]] 0 1).length ≤ 1 :=
  (chat_multiple_tables_global_ranking
    [[⟨1, ("a"), ("f"), 0, 0, 1⟩], [⟨2, ("b"), ("g"), 0, 0, 2⟩]] 0 1).2.2

lemma filterSortBy_eq_nil {α : Type} {simOf : α → ℚ} {l : List α} {t : ℚ}
    (h : ∀ x ∈ l, simOf x < t) : filterSortBy simOf l t = [] := by
  have hf : l.filter (fun x => decide (t ≤ simOf x)) = [] := by
    rw [List.filter_eq_nil_iff]
    intro x hx
    simp [not_le.mpr (h x hx)]
  rw [filterSortBy, hf]
  rfl

lemma chatVectorCore_all_below {synthesize : List Candidate → String}
    {fetched : List Candidate} {top_k : Nat} {t : ℚ} {rs se : Bool}
    (h : ∀ x ∈ fetched, x.similarity < t) :
    chatVectorCore synthesize fetched top_k t rs se =
      ⟨some noInfoAnswer, [], SuggestionsField.pynone, true, false, false⟩ := by
  have hfil := filterSortBy_eq_nil h
  simp [chatVectorCore, hfil]

lemma chatVector_all_below {synthesize : List Candidate → String}
    {cands : List Candidate} {top_k : Nat} {t : ℚ} {rs : Bool} {sel : List Nat}
    (h : ∀ c ∈ cands, c.similarity < t) :
    chatVector synthesize cands top_k t rs sel =
      ⟨some noInfoAnswer, [], SuggestionsField.pynone, true, false, false⟩ := by
  unfold chatVector
  by_cases hsel : sel.isEmpty
  · rw [if_pos hsel]
    refine chatVectorCore_all_below ?_
    intro x hx
    exact h x (mem_sortBySim.1 ((List.take_sublist _ _).subset hx))
  · rw [if_neg hsel]
    refine chatVectorCore_all_below ?_
    intro x hx
    exact h x (List.mem_filter.1 (mem_sortBySim.1 hx)).1

lemma chatFallback_all_below {synthesize : List Candidate → String}
    {sim : List ℚ → List ℚ → ℚ} {q : List ℚ} {rows : List RagRow}
    {top_k : Nat} {t : ℚ} {rs : Bool} {sel : List Nat}
    (h : ∀ c ∈ ragScan sim q rows, c.similarity < t) :
    chatFallback synthesize sim q rows top_k t rs sel =
      ⟨some noInfoAnswer, [], SuggestionsField.pynone, true, false, false⟩ := by
  have hfil := filterSortBy_eq_nil h
  simp [chatFallback, hfil]

/-- C5: when no candidate reaches the similarity threshold, `chat` returns
      the fixed no-information answer with `no_results` true and empty
      sources, and the LLM synthesis chain is never invoked - on both the
      native-vector and the JSON-fallback path, with or without selected
      suggestion ids. -/
theorem chat_zero_candidates (synthesize : List Candidate → String)
    (hvc : Bool) (cands : List Candidate) (rows : List RagRow)
    (sim : List ℚ → List ℚ → ℚ) (q : List ℚ)
    (top_k : Nat) (t : ℚ) (rs : Bool) (sel : List Nat)
    (h1 : ∀ c ∈ cands, c.similarity < t)
    (h2 : ∀ c ∈ ragScan sim q rows, c.similarity < t) :
    chat synthesize true true hvc cands rows sim q top_k t rs sel =
      ⟨some noInfoAnswer, [], SuggestionsField.pynone, true, false, false⟩ := by
  cases hvc
  · simp [chat, chatFallback_all_below h2]
  · simp [chat, chatVector_all_below h1]

/-- Witness for C5: one candidate below the threshold yields the concrete
      fixed no-information response. -/
theorem chat_zero_candidates_witness :
    chat (fun _ => ("ans")) true true true [⟨1, ("a"), ("f"), 0, 0, 0⟩] []
        (fun _ _ => 0) [] 4 1 true [] =
      ⟨some noInfoAnswer, [], SuggestionsField.pynone, true, false, false⟩ :=
  chat_zero_candidates (fun _ => ("ans")) true [⟨1, ("a"), ("f"), 0, 0, 0⟩] []
    (fun _ _ => 0) [] 4 1 true [] (by decide) (by decide)

/-- C6: a `search_vector` request against an existing table that has the
      vector fields but zero populated vector rows returns a
      non-error HTTP 200 response with `totalResults = 0`, an empty
      results list and a warning carrying the total row count - on the
      native path (usable `Embedding` column, no populated `Embedding`)
      and on the fallback path (`VectorJson` column, no populated
      `VectorJson`) alike. -/
theorem search_vector_zero_vector_rows (sim : List ℚ → List ℚ → ℚ)
    (q : List ℚ) (tbl : AppTable) (top_n : Nat) (t : ℚ)
    (hex : tbl.table_exists = true) :
    ((tbl.has_embedding_column &&
        (decide (16 ≤ tbl.server_version_major) && tbl.embedding_type_is_vector)) = true →
      (∀ r ∈ tbl.rows, r.embedding = none) →
      search_vector sim q tbl top_n t =
        ⟨200, some 0, [], some tbl.rows.length, false⟩) ∧
    ((tbl.has_embedding_column &&
        (decide (16 ≤ tbl.server_version_major) && tbl.embedding_type_is_vector)) = false →
      tbl.has_vector_json_column = true →
      (∀ r ∈ tbl.rows, r.vectorJson = none) →
      search_vector sim q tbl top_n t =
        ⟨200, some 0, [], some tbl.rows.length, false⟩) := by
  constructor
  · intro hcap hall
    have hfil : tbl.rows.filter (fun r => r.embedding.isSome) = [] := by
      rw [List.filter_eq_nil_iff]
      intro r hr
      simp [hall r hr]
    simp [search_vector, hex, hcap, hfil]
  · intro hcap hjson hall
    have hfil : tbl.rows.filter (fun r => r.vectorJson.isSome) = [] := by
      rw [List.filter_eq_nil_iff]
      intro r hr
      simp [hall r hr]
    simp [search_vector, hex, hcap, hjson, hfil]

/-- Witness for C6: a concrete existing table with a usable native vector
      column and one row without a populated embedding yields the concrete
      200 warning response carrying the row count. -/
theorem search_vector_zero_vector_rows_witness :
    search_vector (fun _ _ => 0) [] ⟨true, true, true, 16, true,
        [⟨1, some ("a"), none, none⟩]⟩ 10 0 =
      ⟨200, some 0, [], some 1, false⟩ :=
  (search_vector_zero_vector_rows (fun _ _ => 0) []
    ⟨true, true, true, 16, true, [⟨1, some ("a"), none, none⟩]⟩ 10 0 rfl).1
    (by decide) (by decide)

/-- C4 counterexample: the claim asserts that two threshold-passing
      candidates (the default `min_suggestions`) activate suggestions mode
      in the response and suppress the LLM call, but `chat` hard-codes a
      minimum of 3 and synthesizes an answer whenever it has results: with
      exactly two threshold-passing candidates, suggestions enabled and no
      selected ids, the response carries no suggestions block and the LLM
      is invoked. -/
theorem suggestions_mode_counterexample :
    (chat (fun _ => ("ans")) true true true
        [⟨1, ("a"), ("f"), 0, 0, 1⟩, ⟨2, ("b"), ("f"), 0, 0, 1⟩] []
        (fun _ _ => 0) [] 4 0 true []).suggestions = SuggestionsField.pynone ∧
    (chat (fun _ => ("ans")) true true true
        [⟨1, ("a"), ("f"), 0, 0, 1⟩, ⟨2, ("b"), ("f"), 0, 0, 1⟩] []
        (fun _ _ => 0) [] 4 0 true []).llm_called = true := by
  decide

/-- C4 (amended): `search_suggestions` never invokes the LLM and reports
      `has_multiple_suggestions = true` exactly when the ranked
      threshold-passing result count reaches `min_suggestions` (default
      2); in `chat` the activation minimum is hard-coded to 3, the
      activated suggestions block carries the global total and at most 10
      entries with their stable ids, and the LLM is still invoked
      alongside the suggestions whenever `top_k ≥ 1`. -/
theorem suggestions_mode_spec (query_ok hvc : Bool) (cands : List Candidate)
    (rows : List RagRow) (sim : List ℚ → List ℚ → ℚ) (q : List ℚ)
    (top_k : Nat) (t : ℚ) (min_suggestions : Nat)
    (synthesize : List Candidate → String) :
    ((searchSuggestions query_ok hvc cands rows sim q top_k t
        min_suggestions).llm_called = false) ∧
    (query_ok = true →
      ((searchSuggestions query_ok hvc cands rows sim q top_k t
          min_suggestions).has_multiple_suggestions = true ↔
        min_suggestions ≤ (searchSuggestions query_ok hvc cands rows sim q top_k t
            min_suggestions).total_found)) ∧
    (3 ≤ (chatVectorFiltered cands top_k t).length → 1 ≤ top_k →
      (chat synthesize true true true cands rows sim q top_k t true []).suggestions =
        SuggestionsField.block (chatVectorFiltered cands top_k t).length
          ((chatVectorFiltered cands top_k t).take 10) ∧
      ((chatVectorFiltered cands top_k t).take 10).length ≤ 10 ∧
      (chat synthesize true true true cands rows sim q top_k t true []).llm_called =
        true) := by
  refine ⟨?_, ?_, ?_⟩
  · cases query_ok <;> simp [searchSuggestions]
  · intro hq
    subst hq
    simp [searchSuggestions]
  · intro h3 hk
    simp only [chatVectorFiltered] at h3 ⊢
    have hne : ((filterSortBy Candidate.similarity (chatVectorFetched cands top_k)
        t).take top_k).isEmpty = false := by
      rw [List.isEmpty_eq_false]
      intro hnil
      have hlen := congrArg List.length hnil
      rw [List.length_take] at hlen
      rw [List.length_nil] at hlen
      omega
    refine ⟨?_, ?_, ?_⟩
    · simp [chat, chatVector, chatVectorCore, hne, h3]
    · simp [List.length_take]
    · simp [chat, chatVector, chatVectorCore, hne, h3]

/-- Witness for C4 (amended): with three concrete threshold-passing
      candidates the chat response both carries the suggestions block and
      still invokes the LLM. -/
theorem suggestions_mode_spec_witness :
    (chat (fun _ => ("ans")) true true true
        [⟨1, ("a"), ("f"), 0, 0, 1⟩, ⟨2, ("b"), ("f"), 0, 0, 1⟩,
          ⟨3, ("c"), ("f"), 0, 0, 1⟩] []
        (fun _ _ => 0) [] 4 0 true []).llm_called = true :=
  ((suggestions_mode_spec true true
      [⟨1, ("a"), ("f"), 0, 0, 1⟩, ⟨2, ("b"), ("f"), 0, 0, 1⟩,
        ⟨3, ("c"), ("f"), 0, 0, 1⟩] []
      (fun _ _ => 0) [] 4 0 2 (fun _ => ("ans"))).2.2
    (by decide) (by decide)).2.2

lemma chatVectorCore_suggestions_not_selempty
    {synthesize : List Candidate → String} {fetched : List Candidate}
    {top_k : Nat} {t : ℚ} {rs : Bool} :
    (chatVectorCore synthesize fetched top_k t rs false).suggestions =
      SuggestionsField.pynone := by
  simp only [chatVectorCore, Bool.and_false, Bool.false_eq_true, if_false]
  split <;> rfl

lemma chat_suggestions_of_selected {synthesize : List Candidate → String}
    {table_exists hvc : Bool} {cands : List Candidate}
    {rows : List RagRow} {sim : List ℚ → List ℚ → ℚ} {q : List ℚ}
    {top_k : Nat} {t : ℚ} {rs : Bool} {sel : List Nat}
    (hse : sel.isEmpty = false) :
    (chat synthesize true table_exists hvc cands rows sim q top_k t rs
        sel).suggestions = SuggestionsField.pynone := by
  cases table_exists
  · simp [chat]
  · cases hvc
    · simp only [chat, Bool.not_true, Bool.false_eq_true, if_false, if_true,
        Bool.true_eq_false, chatFallback, hse]
      simp only [Bool.and_false, Bool.false_eq_true, if_false]
      split <;> rfl
    · simp only [chat, Bool.not_true, Bool.false_eq_true, if_false, if_true,
        chatVector, hse]
      exact chatVectorCore_suggestions_not_selempty

/-- C10 counterexample: the claim asserts the suggestions field is `None`
      for every request carrying selected ids, but the embedding-failure
      error response (rag_service_sql.py line 567) carries an empty list
      instead: with selected id `1` and a failed query embedding the field
      is not `None`. -/
theorem chat_selected_counterexample :
    (chat (fun _ => ("a")) false true true [] [] (fun _ _ => 0) [] 4 0 true
        [1]).suggestions ≠ SuggestionsField.pynone := by
  decide

/-- C10 (amended): a chat request carrying a non-empty
      `selected_suggestion_ids` list is never offered disambiguation
      again: whenever the query embedding succeeded the `suggestions`
      field is `None` on every path, and on the embedding-failure error
      path it is an empty list - in no case a populated suggestions
      block. -/
theorem chat_selected_no_resuggestion (synthesize : List Candidate → String)
    (table_exists hvc : Bool) (cands : List Candidate) (rows : List RagRow)
    (sim : List ℚ → List ℚ → ℚ) (q : List ℚ) (top_k : Nat) (t : ℚ)
    (rs : Bool) (sel : List Nat) (hsel : sel ≠ []) :
    (chat synthesize true table_exists hvc cands rows sim q top_k t rs
        sel).suggestions = SuggestionsField.pynone ∧
    ∀ (query_ok : Bool) (total : Nat) (entries : List Candidate),
      (chat synthesize query_ok table_exists hvc cands rows sim q top_k t rs
          sel).suggestions ≠ SuggestionsField.block total entries := by
  have hse : sel.isEmpty = false := List.isEmpty_eq_false.mpr hsel
  constructor
  · exact chat_suggestions_of_selected hse
  · intro query_ok total entries
    cases query_ok
    · have h : (chat synthesize false table_exists hvc cands rows sim q top_k t
          rs sel).suggestions = SuggestionsField.emptyList := by
        simp [chat]
      rw [h]
      intro hcon
      exact SuggestionsField.noConfusion hcon
    · rw [chat_suggestions_of_selected hse]
      intro hcon
      exact SuggestionsField.noConfusion hcon

/-- Witness for C10 (amended): a concrete request with selected id `1`
      gets `None` in the suggestions field. -/
theorem chat_selected_no_resuggestion_witness :
    (chat (fun _ => ("a")) true true true [⟨1, ("x"), ("f"), 0, 0, 1⟩] []
        (fun _ _ => 0) [] 4 0 true [1]).suggestions =
      SuggestionsField.pynone :=
  (chat_selected_no_resuggestion (fun _ => ("a")) true true
    [⟨1, ("x"), ("f"), 0, 0, 1⟩] [] (fun _ _ => 0) [] 4 0 true [1]
    (by decide)).1

end RagApi
